import Mathlib

/-!
# Verification of the customer × item demand-forecasting pipeline

A shallow embedding of `src/pipeline/run_pipeline.py`.

Conventions of the embedding:
* a calendar month is an integer ordinal (as in a pandas monthly `Period`:
  ordinal `0` is January 1970, `year = 1970 + m / 12`, `month = m % 12 + 1`);
* quantities are exact rationals;
* the sample standard deviation and the coefficient of variation, whose
  computation in the source takes a square root, live in `ℝ`;
* each pandas data-frame stage becomes a function from the transaction list
  (the normalized staging rows of STEP 4) to the per-pair value that the
  corresponding column holds.
-/

/-- A normalized staging row (STEP 4 of the source): invoice month,
customer id, item code, quantity. -/
structure Txn where
  cust : Int
  item : String
  month : Int
  qty : ℚ
deriving DecidableEq

/-- One row of the dense `monthly_full` grid (STEP 6). -/
structure Cell where
  cust : Int
  item : String
  month : Int
  qty : ℚ
deriving DecidableEq

/-- Aggregated monthly total for one `(customer, item, month)` key:
`monthly_df`'s `TotalQty` (STEP 5), extended by `0` for keys absent from the
sparse table (the left-join `fillna(0)` of STEP 6 agrees with this because an
empty sum is `0`). -/
def monthlyTotal (txns : List Txn) (c : Int) (i : String) (m : Int) : ℚ :=
  ((txns.filter (fun t => t.cust = c ∧ t.item = i ∧ t.month = m)).map Txn.qty).sum

/-- The distinct `(CustId, ItemCode)` pairs of `customer_item_map` (STEP 6). -/
def pairsOf (txns : List Txn) : List (Int × String) :=
  (txns.map (fun t => (t.cust, t.item))).dedup

/-- The `(CustId, ItemCode, YearMonth)` keys present in the sparse
`monthly_df` (STEP 5). -/
def sparseKeysOf (txns : List Txn) : List (Int × String × Int) :=
  (txns.map (fun t => (t.cust, t.item, t.month))).dedup

/-- `monthly_df["YearMonth"].min()`: the global minimum observed month. -/
def gminOf (txns : List Txn) : Option Int :=
  (txns.map Txn.month).min?

/-- `monthly_df["YearMonth"].max()`: the global maximum observed month;
also `current_month` of STEP 9, since the grid and the sparse table have the
same maximum month. -/
def gmaxOf (txns : List Txn) : Option Int :=
  (txns.map Txn.month).max?

/-- The inclusive month range `[a, b]`, as `pd.period_range(a, b)`. -/
def monthsRange (a b : Int) : List Int :=
  (List.range (b - a + 1).toNat).map (fun (k : ℕ) => a + (k : Int))

/-- `all_months` of STEP 6: every month from the global minimum to the global
maximum, in increasing order; empty when there are no transactions. -/
def allMonths (txns : List Txn) : List Int :=
  match gminOf txns, gmaxOf txns with
  | some a, some b => monthsRange a b
  | _, _ => []

/-- The dense grid `monthly_full` (STEP 6): one cell per observed pair and
per month of the global range. -/
def gridOf (txns : List Txn) : List Cell :=
  (pairsOf txns).flatMap
    (fun p => (allMonths txns).map
      (fun m => ⟨p.1, p.2, m, monthlyTotal txns p.1 p.2 m⟩))

/-- A pair's time-ordered monthly series: its `TotalQty` column of
`monthly_full`, sorted by month (as built in STEP 12's `ts`). -/
def seriesOf (txns : List Txn) (c : Int) (i : String) : List ℚ :=
  (allMonths txns).map (fun m => monthlyTotal txns c i m)

/-- `"Negative quantities found after aggregation"`: does some aggregated
monthly total come out negative (the defensive assert of STEP 5)? -/
def hasNegativeMonthly (txns : List Txn) : Bool :=
  (sparseKeysOf txns).any (fun k => monthlyTotal txns k.1 k.2.1 k.2.2 < 0)

/-! ## Layer 1 metrics (STEP 8) -/

/-- Mean of a list of rationals (`0` on the empty list, as `0 / 0 = 0`). -/
def meanQ (l : List ℚ) : ℚ := l.sum / l.length

/-- `(x > 0).sum()`: how many entries of the list are strictly positive. -/
def activeCount (l : List ℚ) : ℕ :=
  (l.filter (fun q => 0 < q)).length

/-- `avg_qty`: mean of the pair's dense series. -/
def avgQtyOf (txns : List Txn) (c : Int) (i : String) : ℚ :=
  meanQ (seriesOf txns c i)

/-- `active_months`: number of months of the pair's series with positive
total. -/
def activeMonthsOf (txns : List Txn) (c : Int) (i : String) : ℕ :=
  activeCount (seriesOf txns c i)

/-- `total_months`: number of grid cells of the pair (the `count`
aggregation of STEP 8). -/
def totalMonthsOf (txns : List Txn) (c : Int) (i : String) : ℕ :=
  (seriesOf txns c i).length

/-- `zero_months = total_months - active_months`. -/
def zeroMonthsOf (txns : List Txn) (c : Int) (i : String) : ℕ :=
  totalMonthsOf txns c i - activeMonthsOf txns c i

/-- `zero_ratio = zero_months / total_months`. -/
def zeroRatioOf (txns : List Txn) (c : Int) (i : String) : ℚ :=
  (zeroMonthsOf txns c i : ℚ) / (totalMonthsOf txns c i : ℚ)

/-- Sample variance (`ddof = 1`, pandas `std` squared); `0` for lists of at
most one element (the `fillna(0)` applied to `std_qty`). -/
def varOf (l : List ℚ) : ℚ :=
  if l.length ≤ 1 then 0
  else (l.map (fun x => (x - meanQ l) ^ 2)).sum / ((l.length : ℚ) - 1)

/-- `std_qty`: sample standard deviation of the series. -/
noncomputable def stdOf (l : List ℚ) : ℝ :=
  Real.sqrt (varOf l)

/-- `cv = std_qty / avg_qty` when `avg_qty > 0`, else `0` (the `np.where`
of STEP 8). -/
noncomputable def cvOf (txns : List Txn) (c : Int) (i : String) : ℝ :=
  if 0 < avgQtyOf txns c i then stdOf (seriesOf txns c i) / (avgQtyOf txns c i : ℝ)
  else 0

/-- `classify_demand` (STEP 8): the ordered demand-segment rule list, read
off a metrics row. -/
noncomputable def classify (am : ℕ) (zr : ℚ) (cv : ℝ) : String :=
  if am ≤ 2 then "One-time"
  else if (4 : ℚ) / 5 < zr then "Intermittent"
  else if (3 : ℝ) / 2 < cv then "Lumpy"
  else if (1 : ℝ) / 2 < cv then "Moderate"
  else "Stable"

/-- `DemandSegment` column of `layer1_metrics`. -/
noncomputable def demandSegmentOf (txns : List Txn) (c : Int) (i : String) : String :=
  classify (activeMonthsOf txns c i) (zeroRatioOf txns c i) (cvOf txns c i)

/-! ## Layer 2 features (STEP 9) -/

/-- `.dt.year` of a monthly period with the given ordinal (floor
division, as period ordinals anchor at January 1970). -/
def yearOfMonth (m : Int) : Int := 1970 + m / 12

/-- `.dt.month` of a monthly period with the given ordinal. -/
def monthNumOf (m : Int) : Int := m % 12 + 1

/-- The `months_since_last_order` formula of STEP 9:
`(current.year - last.year) * 12 + (current.month - last.month)`. -/
def monthsSinceFormula (cur last : Int) : Int :=
  (yearOfMonth cur - yearOfMonth last) * 12 + (monthNumOf cur - monthNumOf last)

/-- `last_order_month` of `layer2_base`: the greatest grid month with a
positive total for the pair; `none` when the pair has no active month. -/
def lastActiveOf (txns : List Txn) (c : Int) (i : String) : Option Int :=
  ((allMonths txns).filter (fun m => 0 < monthlyTotal txns c i m)).max?

/-- `months_since_last_order` after the merge of STEP 10: the STEP 9 formula
against the global maximum month, or `total_months` via `fillna` when the
pair never ordered. -/
def msloOf (txns : List Txn) (c : Int) (i : String) : Int :=
  match gmaxOf txns, lastActiveOf txns c i with
  | some cur, some l => monthsSinceFormula cur l
  | _, _ => (totalMonthsOf txns c i : Int)

/-- The grid months of the trailing window: `YearMonth > current_month - 12`. -/
def recentMonthsOf (txns : List Txn) : List Int :=
  match gmaxOf txns with
  | some cur => (allMonths txns).filter (fun m => cur - 12 < m)
  | none => []

/-- `recent_active_months`: active months within the trailing window. -/
def ramOf (txns : List Txn) (c : Int) (i : String) : ℕ :=
  ((recentMonthsOf txns).filter (fun m => 0 < monthlyTotal txns c i m)).length

/-- `recent_avg_qty`: mean total over all window cells, zeros included. -/
def recentAvgOf (txns : List Txn) (c : Int) (i : String) : ℚ :=
  meanQ ((recentMonthsOf txns).map (fun m => monthlyTotal txns c i m))

/-! ## Planning status and forecast policy (STEP 10) -/

/-- `assign_planning_status`: the ordered status rule list. -/
def assignPlanningStatus (seg : String) (ram : ℕ) (mslo : Int) : String :=
  if seg = "One-time" then "Ignore"
  else if ram = 0 ∧ 12 < mslo then "Inactive"
  else if 6 ≤ ram then "Active"
  else "At-Risk"

/-- `assign_forecast_policy`: policy derived from the status. -/
def assignForecastPolicy (status : String) (ram : ℕ) (ravg avg : ℚ) : String :=
  if status = "Active" then "Auto-Forecast"
  else if status = "At-Risk" then
    if 2 ≤ ram ∨ avg < ravg then "Advisory-Forecast" else "No-Forecast"
  else "No-Forecast"

/-- `PlanningStatus` column of `planning_df`. -/
noncomputable def planningStatusOf (txns : List Txn) (c : Int) (i : String) : String :=
  assignPlanningStatus (demandSegmentOf txns c i) (ramOf txns c i) (msloOf txns c i)

/-- `ForecastPolicy` column of `planning_df`. -/
noncomputable def forecastPolicyOf (txns : List Txn) (c : Int) (i : String) : String :=
  assignForecastPolicy (planningStatusOf txns c i) (ramOf txns c i)
    (recentAvgOf txns c i) (avgQtyOf txns c i)

/-! ## Forecast computation (STEP 11) -/

/-- `.tail(6)`: the last (up to) six entries of a series. -/
def tail6 (l : List ℚ) : List ℚ := l.drop (l.length - 6)

/-- pandas `.median()`: middle element of the sorted list for odd length,
average of the two middle elements for even length (`0` on the empty list). -/
def medianQ (l : List ℚ) : ℚ :=
  let s := l.mergeSort (fun a b => a ≤ b)
  if l.length % 2 = 1 then s.getD (l.length / 2) 0
  else (s.getD (l.length / 2 - 1) 0 + s.getD (l.length / 2) 0) / 2

/-- `forecast_next_month` (STEP 11): the segment-specific estimator. -/
def forecast_next_month (ts : List ℚ) (segment : String) (ram : ℕ) : ℚ :=
  let tsNonzero := ts.filter (fun q => 0 < q)
  if segment = "Stable" ∨ segment = "Moderate" then meanQ (tail6 ts)
  else if segment = "Lumpy" then
    if tsNonzero = [] then 0 else medianQ (tail6 tsNonzero)
  else if segment = "Intermittent" then
    if tsNonzero = [] then 0
    else meanQ (tail6 tsNonzero) * ((ram : ℚ) / 12)
  else 0

/-- The raw (pre-rounding) forecast the STEP 12 loop computes for a pair. -/
noncomputable def rawForecastOf (txns : List Txn) (c : Int) (i : String) : ℚ :=
  forecast_next_month (seriesOf txns c i) (demandSegmentOf txns c i) (ramOf txns c i)

/-- Python `round(x, 0)`: round to the nearest integer, ties to the even
integer. -/
def roundHalfEven (x : ℚ) : Int :=
  if x - ⌊x⌋ < 1 / 2 then ⌊x⌋
  else if 1 / 2 < x - ⌊x⌋ then ⌊x⌋ + 1
  else if ⌊x⌋ % 2 = 0 then ⌊x⌋ else ⌊x⌋ + 1

/-- `forecast_rows` (STEP 12): one `(CustId, ItemCode, ForecastQty_NextMonth)`
row per pair whose policy is not `No-Forecast`. -/
noncomputable def forecastRowsOf (txns : List Txn) : List (Int × String × Int) :=
  ((pairsOf txns).filter (fun p => forecastPolicyOf txns p.1 p.2 ≠ "No-Forecast")).map
    (fun p => (p.1, p.2, roundHalfEven (rawForecastOf txns p.1 p.2)))

/-- The `ForecastQty_NextMonth` value the left merge of STEP 13 attaches to a
pair: the matching `forecast_df` row's quantity, or null. -/
noncomputable def forecastQtyOf (txns : List Txn) (c : Int) (i : String) : Option Int :=
  ((forecastRowsOf txns).find? (fun r => r.1 = c ∧ r.2.1 = i)).map (fun r => r.2.2)

/-- One row of `forecast_summary.csv` (STEP 13). -/
structure SummaryRow where
  cust : Int
  item : String
  demandSegment : String
  planningStatus : String
  forecastPolicy : String
  forecastQty : Option Int
  avgQty : ℚ
  cv : ℝ
  zeroRatioVal : ℚ
  recentActiveMonths : ℕ
  monthsSinceLastOrder : Int

/-- `forecast_summary` (STEP 13): one row per pair of `planning_df`. -/
noncomputable def forecastSummaryOf (txns : List Txn) : List SummaryRow :=
  (pairsOf txns).map (fun p =>
    ⟨p.1, p.2, demandSegmentOf txns p.1 p.2, planningStatusOf txns p.1 p.2,
      forecastPolicyOf txns p.1 p.2, forecastQtyOf txns p.1 p.2,
      avgQtyOf txns p.1 p.2, cvOf txns p.1 p.2, zeroRatioOf txns p.1 p.2,
      ramOf txns p.1 p.2, msloOf txns p.1 p.2⟩)

/-- The error taxonomy of the pipeline's fatal asserts. -/
inductive PipeError where
  | emptyInput
  | negativeQty
  | noForecasts
deriving DecidableEq

/-- The three persisted outputs of STEP 13. -/
structure Outputs where
  summary : List SummaryRow
  history : List Cell
  pairMap : List (Int × String)

/-- The whole run: the fatal asserts in source order (STEP 3's empty-input
check, STEP 5's negative-aggregate check, STEP 12's no-forecast check),
then the persisted outputs of STEP 13. -/
noncomputable def runPipeline (txns : List Txn) : Except PipeError Outputs :=
  if txns = [] then .error .emptyInput
  else if hasNegativeMonthly txns then .error .negativeQty
  else if forecastRowsOf txns = [] then .error .noForecasts
  else .ok ⟨forecastSummaryOf txns, gridOf txns, pairsOf txns⟩

/-- Spec reading of the Lumpy estimator: the median of the trailing six
entries of the series restricted to months with positive total, and `0`
when that restriction is empty. -/
def lumpyForecastSpec (ts : List ℚ) : ℚ :=
  if ts.filter (fun q => 0 < q) = [] then 0
  else medianQ (tail6 (ts.filter (fun q => 0 < q)))

/-! ## Helper lemmas -/

theorem mem_monthsRange {a b m : Int} : m ∈ monthsRange a b ↔ a ≤ m ∧ m ≤ b := by
  unfold monthsRange
  rw [List.mem_map]
  constructor
  · rintro ⟨k, hk, rfl⟩
    rw [List.mem_range] at hk
    constructor <;> omega
  · intro h
    refine ⟨(m - a).toNat, ?_, ?_⟩
    · rw [List.mem_range]; omega
    · show a + ((m - a).toNat : Int) = m
      omega

theorem nodup_monthsRange (a b : Int) : (monthsRange a b).Nodup := by
  unfold monthsRange
  refine List.Nodup.map ?_ (List.nodup_range _)
  intro k₁ k₂ h
  simp only at h
  omega

theorem length_monthsRange (a b : Int) :
    (monthsRange a b).length = (b - a + 1).toNat := by
  rw [monthsRange, List.length_map, List.length_range]

theorem monthlyTotal_nonneg {txns : List Txn} (h : ∀ t ∈ txns, 0 ≤ t.qty)
    (c : Int) (i : String) (m : Int) : 0 ≤ monthlyTotal txns c i m := by
  unfold monthlyTotal
  refine List.sum_nonneg ?_
  intro q hq
  obtain ⟨t, ht, rfl⟩ := List.mem_map.mp hq
  exact h t (List.mem_of_mem_filter ht)

/-! ## C1: demand-segment classification -/

/-- C1: For every pair in the dense grid, the demand segment is assigned by
the first matching rule of the ordered list: `active_months ≤ 2` gives
One-time; else `zero_ratio > 0.80` gives Intermittent; else `cv > 1.5` gives
Lumpy; else `cv > 0.5` gives Moderate; else Stable. Every pair receives
exactly one of the five labels, and a pair with `active_months = 1` is
One-time regardless of its coefficient of variation. -/
theorem C1_segment_rule_order :
    (∀ (txns : List Txn) (c : Int) (i : String),
      demandSegmentOf txns c i =
        classify (activeMonthsOf txns c i) (zeroRatioOf txns c i) (cvOf txns c i)) ∧
    (∀ (am : ℕ) (zr : ℚ) (cv : ℝ),
      (am ≤ 2 → classify am zr cv = "One-time") ∧
      (¬ am ≤ 2 → (4 : ℚ) / 5 < zr → classify am zr cv = "Intermittent") ∧
      (¬ am ≤ 2 → ¬ (4 : ℚ) / 5 < zr → (3 : ℝ) / 2 < cv →
        classify am zr cv = "Lumpy") ∧
      (¬ am ≤ 2 → ¬ (4 : ℚ) / 5 < zr → ¬ (3 : ℝ) / 2 < cv → (1 : ℝ) / 2 < cv →
        classify am zr cv = "Moderate") ∧
      (¬ am ≤ 2 → ¬ (4 : ℚ) / 5 < zr → ¬ (3 : ℝ) / 2 < cv → ¬ (1 : ℝ) / 2 < cv →
        classify am zr cv = "Stable") ∧
      (classify am zr cv = "One-time" ∨ classify am zr cv = "Intermittent" ∨
        classify am zr cv = "Lumpy" ∨ classify am zr cv = "Moderate" ∨
        classify am zr cv = "Stable") ∧
      (am = 1 → classify am zr cv = "One-time")) := by
  constructor
  · intro txns c i
    rfl
  · intro am zr cv
    refine ⟨?_, ?_, ?_, ?_, ?_, ?_, ?_⟩
    · intro h1
      unfold classify
      rw [if_pos h1]
    · intro h1 h2
      unfold classify
      rw [if_neg h1, if_pos h2]
    · intro h1 h2 h3
      unfold classify
      rw [if_neg h1, if_neg h2, if_pos h3]
    · intro h1 h2 h3 h4
      unfold classify
      rw [if_neg h1, if_neg h2, if_neg h3, if_pos h4]
    · intro h1 h2 h3 h4
      unfold classify
      rw [if_neg h1, if_neg h2, if_neg h3, if_neg h4]
    · unfold classify
      split_ifs <;> simp
    · intro h1
      unfold classify
      rw [if_pos (by omega : am ≤ 2)]

/-- Witness for C1: a pair active in a single month is One-time even with a
huge coefficient of variation. -/
theorem C1_segment_rule_order_witness :
    classify 1 0 100 = "One-time" :=
  (C1_segment_rule_order.2 1 0 100).2.2.2.2.2.2 rfl

/-! ## C2: planning status and forecast policy -/

/-- C2: planning status is assigned by the first matching rule of: One-time
gives Ignore; else `recent_active_months = 0` and
`months_since_last_order > 12` gives Inactive; else
`recent_active_months ≥ 6` gives Active; else At-Risk. The policy is then
Auto-Forecast for Active; Advisory-Forecast for At-Risk when
`recent_active_months ≥ 2` or `recent_avg_qty > avg_qty`, No-Forecast
otherwise; and No-Forecast for Inactive and Ignore. -/
theorem C2_planning_rule_order :
    (∀ (txns : List Txn) (c : Int) (i : String),
      planningStatusOf txns c i =
        assignPlanningStatus (demandSegmentOf txns c i) (ramOf txns c i)
          (msloOf txns c i)) ∧
    (∀ (txns : List Txn) (c : Int) (i : String),
      forecastPolicyOf txns c i =
        assignForecastPolicy (planningStatusOf txns c i) (ramOf txns c i)
          (recentAvgOf txns c i) (avgQtyOf txns c i)) ∧
    (∀ (seg : String) (ram : ℕ) (mslo : Int),
      (seg = "One-time" → assignPlanningStatus seg ram mslo = "Ignore") ∧
      (seg ≠ "One-time" → ram = 0 → 12 < mslo →
        assignPlanningStatus seg ram mslo = "Inactive") ∧
      (seg ≠ "One-time" → ¬ (ram = 0 ∧ 12 < mslo) → 6 ≤ ram →
        assignPlanningStatus seg ram mslo = "Active") ∧
      (seg ≠ "One-time" → ¬ (ram = 0 ∧ 12 < mslo) → ¬ 6 ≤ ram →
        assignPlanningStatus seg ram mslo = "At-Risk")) ∧
    (∀ (st : String) (ram : ℕ) (ravg avg : ℚ),
      (st = "Active" → assignForecastPolicy st ram ravg avg = "Auto-Forecast") ∧
      (st = "At-Risk" → (2 ≤ ram ∨ avg < ravg) →
        assignForecastPolicy st ram ravg avg = "Advisory-Forecast") ∧
      (st = "At-Risk" → ¬ (2 ≤ ram ∨ avg < ravg) →
        assignForecastPolicy st ram ravg avg = "No-Forecast") ∧
      (st ≠ "Active" → st ≠ "At-Risk" →
        assignForecastPolicy st ram ravg avg = "No-Forecast")) := by
  refine ⟨fun txns c i => rfl, fun txns c i => rfl, ?_, ?_⟩
  · intro seg ram mslo
    refine ⟨?_, ?_, ?_, ?_⟩
    · intro h1
      unfold assignPlanningStatus
      rw [if_pos h1]
    · intro h1 h2 h3
      unfold assignPlanningStatus
      rw [if_neg h1, if_pos ⟨h2, h3⟩]
    · intro h1 h2 h3
      unfold assignPlanningStatus
      rw [if_neg h1, if_neg h2, if_pos h3]
    · intro h1 h2 h3
      unfold assignPlanningStatus
      rw [if_neg h1, if_neg h2, if_neg h3]
  · intro st ram ravg avg
    refine ⟨?_, ?_, ?_, ?_⟩
    · intro h1
      unfold assignForecastPolicy
      rw [if_pos h1]
    · intro h1 h2
      subst h1
      unfold assignForecastPolicy
      rw [if_neg (by simp), if_pos rfl, if_pos h2]
    · intro h1 h2
      subst h1
      unfold assignForecastPolicy
      rw [if_neg (by simp), if_pos rfl, if_neg h2]
    · intro h1 h2
      unfold assignForecastPolicy
      rw [if_neg h1, if_neg h2]

/-- Witness for C2: a One-time pair is Ignore, and an At-Risk pair with two
recent active months gets an Advisory-Forecast. -/
theorem C2_planning_rule_order_witness :
    assignPlanningStatus ("One-time") 9 99 = "Ignore" ∧
    assignForecastPolicy ("At-Risk") 2 0 0 = "Advisory-Forecast" :=
  ⟨(C2_planning_rule_order.2.2.1 ("One-time") 9 99).1 rfl,
   (C2_planning_rule_order.2.2.2 ("At-Risk") 2 0 0).2.1 rfl (Or.inl le_rfl)⟩

/-! ## C8: non-negative aggregation -/

/-- C8: when every per-transaction quantity is non-negative, every
aggregated monthly total is non-negative, so the defensive
negative-quantity check never fires. -/
theorem C8_no_negative_aggregates (txns : List Txn)
    (h : ∀ t ∈ txns, 0 ≤ t.qty) :
    hasNegativeMonthly txns = false ∧
    ∀ (c : Int) (i : String) (m : Int), 0 ≤ monthlyTotal txns c i m := by
  refine ⟨?_, fun c i m => monthlyTotal_nonneg h c i m⟩
  unfold hasNegativeMonthly
  rw [List.any_eq_false]
  intro k hk
  simp only [decide_eq_true_eq]
  exact not_lt.mpr (monthlyTotal_nonneg h k.1 k.2.1 k.2.2)

/-- Witness for C8 on a concrete two-row transaction list. -/
theorem C8_no_negative_aggregates_witness :
    hasNegativeMonthly [⟨1, "A", 0, 2⟩, ⟨1, "A", 0, 3⟩] = false ∧
    ∀ (c : Int) (i : String) (m : Int),
      0 ≤ monthlyTotal [⟨1, "A", 0, 2⟩, ⟨1, "A", 0, 3⟩] c i m :=
  C8_no_negative_aggregates _ (by decide)

/-! ## C3: the Lumpy estimator -/

/-- C3: the forecast computed for a Lumpy pair (before rounding) is the
median of the trailing six entries of the pair's time-ordered series
restricted to months with positive total, and `0` when the pair has no such
month (`lumpyForecastSpec` spells out exactly that reading of the spec). -/
theorem C3_lumpy_forecast_is_median :
    (∀ (txns : List Txn) (c : Int) (i : String),
      rawForecastOf txns c i =
        forecast_next_month (seriesOf txns c i) (demandSegmentOf txns c i)
          (ramOf txns c i)) ∧
    (∀ (ts : List ℚ) (ram : ℕ),
      forecast_next_month ts ("Lumpy") ram = lumpyForecastSpec ts) ∧
    (∀ (txns : List Txn) (c : Int) (i : String),
      demandSegmentOf txns c i = "Lumpy" →
        rawForecastOf txns c i = lumpyForecastSpec (seriesOf txns c i)) := by
  have key : ∀ (ts : List ℚ) (ram : ℕ),
      forecast_next_month ts ("Lumpy") ram = lumpyForecastSpec ts := by
    intro ts ram
    simp only [forecast_next_month, lumpyForecastSpec]
    rw [if_neg (by simp)]
    simp
  refine ⟨fun txns c i => rfl, key, ?_⟩
  intro txns c i h
  rw [rawForecastOf, h]
  exact key _ _

/-- A concrete four-transaction history whose single pair is Lumpy:
its series is `[0, 0, 30, 3, 3]`, so three active months, a zero ratio of
`2/5`, and a coefficient of variation above `1.5`. -/
def txC3 : List Txn := [⟨1, "A", 0, 0⟩, ⟨1, "A", 2, 30⟩, ⟨1, "A", 3, 3⟩, ⟨1, "A", 4, 3⟩]

/-- Witness for C3 on the concrete Lumpy pair of `txC3`. -/
theorem C3_lumpy_forecast_is_median_witness :
    rawForecastOf txC3 1 ("A") = lumpyForecastSpec (seriesOf txC3 1 ("A")) := by
  have h_series : seriesOf txC3 1 ("A") = [0, 0, 30, 3, 3] := by
    rw [seriesOf, show allMonths txC3 = [0, 1, 2, 3, 4] from rfl]
    norm_num [monthlyTotal, txC3, List.filter]
  have h_am : activeMonthsOf txC3 1 ("A") = 3 := by
    rw [activeMonthsOf, activeCount, h_series]
    norm_num [List.filter]
  have h_zr : zeroRatioOf txC3 1 ("A") = 2 / 5 := by
    have h_tm : totalMonthsOf txC3 1 ("A") = 5 := rfl
    rw [zeroRatioOf, zeroMonthsOf, h_tm, h_am]
    norm_num
  have h_avg : avgQtyOf txC3 1 ("A") = 36 / 5 := by
    rw [avgQtyOf, h_series]
    norm_num [meanQ]
  have h_var : varOf (seriesOf txC3 1 ("A")) = 1647 / 10 := by
    rw [h_series]
    norm_num [varOf, meanQ]
  have h_cv : (3 : ℝ) / 2 < cvOf txC3 1 ("A") := by
    rw [cvOf, if_pos (by rw [h_avg]; norm_num)]
    rw [stdOf, h_var, h_avg]
    rw [show ((36 / 5 : ℚ) : ℝ) = 36 / 5 from by norm_num]
    rw [lt_div_iff₀ (by norm_num)]
    rw [show ((1647 / 10 : ℚ) : ℝ) = 1647 / 10 from by norm_num]
    rw [Real.lt_sqrt (by norm_num)]
    norm_num
  have hseg : demandSegmentOf txC3 1 ("A") = "Lumpy" := by
    rw [demandSegmentOf, h_am, classify]
    rw [if_neg (by norm_num)]
    rw [if_neg (by rw [h_zr]; norm_num)]
    rw [if_pos h_cv]
  exact C3_lumpy_forecast_is_median.2.2 txC3 1 ("A") hseg

/-! ## C4: the dense grid -/

theorem gminOf_le {txns : List Txn} {a : Int} (h : gminOf txns = some a) :
    ∀ t ∈ txns, a ≤ t.month := by
  intro t ht
  exact (List.le_min?_iff (fun x y z => le_min_iff) h).mp le_rfl t.month
    (List.mem_map_of_mem Txn.month ht)

theorem le_gmaxOf {txns : List Txn} {b : Int} (h : gmaxOf txns = some b) :
    ∀ t ∈ txns, t.month ≤ b := by
  intro t ht
  exact (List.max?_le_iff (fun x y z => max_le_iff) h).mp le_rfl t.month
    (List.mem_map_of_mem Txn.month ht)

theorem gminOf_isSome {txns : List Txn} (h : txns ≠ []) :
    ∃ a, gminOf txns = some a := by
  cases ha : gminOf txns with
  | some a => exact ⟨a, rfl⟩
  | none =>
    rw [gminOf, List.min?_eq_none_iff, List.map_eq_nil_iff] at ha
    exact absurd ha h

theorem gmaxOf_isSome {txns : List Txn} (h : txns ≠ []) :
    ∃ b, gmaxOf txns = some b := by
  cases hb : gmaxOf txns with
  | some b => exact ⟨b, rfl⟩
  | none =>
    rw [gmaxOf, List.max?_eq_none_iff, List.map_eq_nil_iff] at hb
    exact absurd hb h

theorem allMonths_eq {txns : List Txn} {a b : Int}
    (ha : gminOf txns = some a) (hb : gmaxOf txns = some b) :
    allMonths txns = monthsRange a b := by
  rw [allMonths, ha, hb]

theorem grid_filter_map_month (months : List Int) (f : Int → String → Int → ℚ)
    (c : Int) (i : String) :
    ∀ ps : List (Int × String), ps.Nodup → (c, i) ∈ ps →
      ((ps.flatMap (fun p => months.map
          (fun m => Cell.mk p.1 p.2 m (f p.1 p.2 m)))).filter
        (fun cell => cell.cust = c ∧ cell.item = i)).map Cell.month = months := by
  intro ps
  induction ps with
  | nil => intro _ hmem; exact absurd hmem (List.not_mem_nil _)
  | cons q ps ih =>
    intro hnd hmem
    rw [List.flatMap_cons, List.filter_append, List.map_append]
    by_cases hq : q = (c, i)
    · subst hq
      have hnotin : (c, i) ∉ ps := (List.nodup_cons.mp hnd).1
      have h₁ : ((months.map (fun m => Cell.mk c i m (f c i m))).filter
          (fun cell => cell.cust = c ∧ cell.item = i)) =
          months.map (fun m => Cell.mk c i m (f c i m)) := by
        rw [List.filter_eq_self]
        intro cell hcell
        obtain ⟨m, _, rfl⟩ := List.mem_map.mp hcell
        exact decide_eq_true ⟨rfl, rfl⟩
      have h₂ : ((ps.flatMap (fun p => months.map
          (fun m => Cell.mk p.1 p.2 m (f p.1 p.2 m)))).filter
          (fun cell => cell.cust = c ∧ cell.item = i)) = [] := by
        rw [List.filter_eq_nil_iff]
        intro cell hcell
        obtain ⟨p, hp, hcm⟩ := List.mem_flatMap.mp hcell
        obtain ⟨m, _, rfl⟩ := List.mem_map.mp hcm
        intro htrue
        obtain ⟨h1, h2⟩ := of_decide_eq_true htrue
        exact hnotin (by rwa [show p = (c, i) from Prod.ext h1 h2] at hp)
      rw [h₁, h₂, List.map_nil, List.append_nil, List.map_map]
      simp [Function.comp_def]
    · have h₁ : ((months.map (fun m => Cell.mk q.1 q.2 m (f q.1 q.2 m))).filter
          (fun cell => cell.cust = c ∧ cell.item = i)) = [] := by
        rw [List.filter_eq_nil_iff]
        intro cell hcell
        obtain ⟨m, _, rfl⟩ := List.mem_map.mp hcell
        intro htrue
        obtain ⟨h1, h2⟩ := of_decide_eq_true htrue
        exact hq (Prod.ext h1 h2)
      rw [h₁, List.map_nil, List.nil_append]
      refine ih (List.nodup_cons.mp hnd).2 ?_
      rcases List.mem_cons.mp hmem with h | h
      · exact absurd h.symm hq
      · exact h

/-- C4: for every observed pair the dense grid holds exactly one cell per
calendar month of the global observed range `[global_min_month,
global_max_month]`, with no gaps and no duplicates, and `total_months` equals
the length of that range, the same number for every pair. -/
theorem C4_dense_grid_complete (txns : List Txn) (c : Int) (i : String)
    (hne : txns ≠ []) (hp : (c, i) ∈ pairsOf txns) :
    ∃ a b : Int, gminOf txns = some a ∧ gmaxOf txns = some b ∧ a ≤ b ∧
      ((gridOf txns).filter
          (fun cell => cell.cust = c ∧ cell.item = i)).map Cell.month
        = monthsRange a b ∧
      (∀ m : Int, m ∈ monthsRange a b ↔ (a ≤ m ∧ m ≤ b)) ∧
      (monthsRange a b).Nodup ∧
      totalMonthsOf txns c i = (monthsRange a b).length ∧
      (∀ (c2 : Int) (i2 : String), (c2, i2) ∈ pairsOf txns →
        totalMonthsOf txns c2 i2 = totalMonthsOf txns c i) := by
  obtain ⟨a, ha⟩ := gminOf_isSome hne
  obtain ⟨b, hb⟩ := gmaxOf_isSome hne
  obtain ⟨t, ht⟩ := List.exists_mem_of_ne_nil txns hne
  have hab : a ≤ b := le_trans (gminOf_le ha t ht) (le_gmaxOf hb t ht)
  have hall : allMonths txns = monthsRange a b := allMonths_eq ha hb
  refine ⟨a, b, ha, hb, hab, ?_, fun m => mem_monthsRange, nodup_monthsRange a b,
    ?_, ?_⟩
  · rw [gridOf, hall]
    exact grid_filter_map_month (monthsRange a b)
      (fun c2 i2 m => monthlyTotal txns c2 i2 m) c i (pairsOf txns)
      (List.nodup_dedup _) hp
  · rw [totalMonthsOf, seriesOf, List.length_map, hall]
  · intro c2 i2 _
    rw [totalMonthsOf, seriesOf, List.length_map, totalMonthsOf, seriesOf,
      List.length_map]

/-- A concrete history with two pairs and global month range 0..3. -/
def txC4 : List Txn := [⟨1, "A", 0, 2⟩, ⟨2, "B", 3, 5⟩]

/-- Witness for C4 on a concrete two-pair history spanning months 0..3. -/
theorem C4_dense_grid_complete_witness :
    ∃ a b : Int, gminOf txC4 = some a ∧ gmaxOf txC4 = some b ∧ a ≤ b ∧
      ((gridOf txC4).filter
          (fun cell => cell.cust = 1 ∧ cell.item = "A")).map Cell.month
        = monthsRange a b ∧
      (∀ m : Int, m ∈ monthsRange a b ↔ (a ≤ m ∧ m ≤ b)) ∧
      (monthsRange a b).Nodup ∧
      totalMonthsOf txC4 1 ("A") = (monthsRange a b).length ∧
      (∀ (c2 : Int) (i2 : String), (c2, i2) ∈ pairsOf txC4 →
        totalMonthsOf txC4 c2 i2 = totalMonthsOf txC4 1 ("A")) :=
  C4_dense_grid_complete txC4 1 ("A") (by decide) (by decide)

/-! ## C7: months since last order -/

/-- The year/month decomposition formula collapses to the difference of the
month ordinals. -/
theorem monthsSinceFormula_eq (cur last : Int) :
    monthsSinceFormula cur last = cur - last := by
  unfold monthsSinceFormula yearOfMonth monthNumOf
  omega

/-- C7: a pair with at least one active month gets
`months_since_last_order = (ref_year - last_year) * 12 + (ref_month -
last_month)` against the maximum grid month, a non-negative integer; a pair
with no active month gets `total_months`. -/
theorem C7_recency (txns : List Txn) (c : Int) (i : String)
    (hne : txns ≠ []) :
    ((∃ m ∈ allMonths txns, 0 < monthlyTotal txns c i m) →
      ∃ cur l : Int, gmaxOf txns = some cur ∧ lastActiveOf txns c i = some l ∧
        msloOf txns c i = monthsSinceFormula cur l ∧
        monthsSinceFormula cur l = cur - l ∧
        0 ≤ msloOf txns c i) ∧
    ((∀ m ∈ allMonths txns, ¬ 0 < monthlyTotal txns c i m) →
      msloOf txns c i = (totalMonthsOf txns c i : Int)) := by
  obtain ⟨a, ha⟩ := gminOf_isSome hne
  obtain ⟨b, hb⟩ := gmaxOf_isSome hne
  have hall : allMonths txns = monthsRange a b := allMonths_eq ha hb
  constructor
  · rintro ⟨m, hm, hpos⟩
    have hmf : m ∈ (allMonths txns).filter
        (fun m => 0 < monthlyTotal txns c i m) :=
      List.mem_filter.mpr ⟨hm, decide_eq_true hpos⟩
    have hsome := List.isSome_max?_of_mem hmf
    obtain ⟨l, hl⟩ := Option.isSome_iff_exists.mp hsome
    have hlact : lastActiveOf txns c i = some l := hl
    have hlmem : l ∈ (allMonths txns).filter
        (fun m => 0 < monthlyTotal txns c i m) :=
      List.max?_mem (fun x y => max_choice x y) hl
    have hlb : l ≤ b := by
      have := (List.mem_filter.mp hlmem).1
      rw [hall] at this
      exact (mem_monthsRange.mp this).2
    have hmslo : msloOf txns c i = monthsSinceFormula b l := by
      unfold msloOf
      rw [hb, hlact]
    refine ⟨b, l, hb, hlact, hmslo, monthsSinceFormula_eq b l, ?_⟩
    rw [hmslo, monthsSinceFormula_eq]
    omega
  · intro hnone
    have hfil : (allMonths txns).filter
        (fun m => 0 < monthlyTotal txns c i m) = [] := by
      rw [List.filter_eq_nil_iff]
      intro m hm htrue
      exact hnone m hm (of_decide_eq_true htrue)
    have hlact : lastActiveOf txns c i = none := by
      unfold lastActiveOf
      rw [hfil]
      rfl
    unfold msloOf
    rw [hb, hlact]

/-- A concrete one-pair history active in months 0 and 14. -/
def txC7 : List Txn := [⟨1, "A", 0, 5⟩, ⟨1, "A", 14, 3⟩]

/-- Witness for C7 on the concrete history `txC7`. -/
theorem C7_recency_witness :
    ((∃ m ∈ allMonths txC7, 0 < monthlyTotal txC7 1 ("A") m) →
      ∃ cur l : Int, gmaxOf txC7 = some cur ∧
        lastActiveOf txC7 1 ("A") = some l ∧
        msloOf txC7 1 ("A") = monthsSinceFormula cur l ∧
        monthsSinceFormula cur l = cur - l ∧
        0 ≤ msloOf txC7 1 ("A")) ∧
    ((∀ m ∈ allMonths txC7, ¬ 0 < monthlyTotal txC7 1 ("A") m) →
      msloOf txC7 1 ("A") = (totalMonthsOf txC7 1 ("A") : Int)) :=
  C7_recency txC7 1 ("A") (by decide)

/-! ## C5: presence of the forecast quantity -/

/-- Every `forecast_rows` entry belongs to a pair whose policy is not
No-Forecast and carries that pair's rounded forecast. -/
theorem forecastRows_key {txns : List Txn} {r : Int × String × Int}
    (hr : r ∈ forecastRowsOf txns) :
    (r.1, r.2.1) ∈ pairsOf txns ∧
    forecastPolicyOf txns r.1 r.2.1 ≠ "No-Forecast" ∧
    r.2.2 = roundHalfEven (rawForecastOf txns r.1 r.2.1) := by
  obtain ⟨p, hp, rfl⟩ := List.mem_map.mp hr
  have hfil := List.mem_filter.mp hp
  exact ⟨hfil.1, of_decide_eq_true hfil.2, rfl⟩

/-- C5: in the forecast summary, `forecast_qty_next_month` is present if and
only if the pair's policy is not No-Forecast; in particular every
Auto-Forecast or Advisory-Forecast pair has a defined forecast quantity. -/
theorem C5_forecast_presence (txns : List Txn) (c : Int) (i : String)
    (hp : (c, i) ∈ pairsOf txns) :
    ((forecastQtyOf txns c i).isSome ↔
      forecastPolicyOf txns c i ≠ "No-Forecast") ∧
    ((forecastPolicyOf txns c i = "Auto-Forecast" ∨
        forecastPolicyOf txns c i = "Advisory-Forecast") →
      (forecastQtyOf txns c i).isSome) := by
  have hiff : (forecastQtyOf txns c i).isSome ↔
      forecastPolicyOf txns c i ≠ "No-Forecast" := by
    rw [forecastQtyOf, Option.isSome_map', List.find?_isSome]
    constructor
    · rintro ⟨r, hr, hpred⟩
      obtain ⟨h1, h2⟩ := of_decide_eq_true hpred
      have hkey := forecastRows_key hr
      rw [h1, h2] at hkey
      exact hkey.2.1
    · intro hpol
      refine ⟨(c, i, roundHalfEven (rawForecastOf txns c i)), ?_, ?_⟩
      · rw [forecastRowsOf]
        refine List.mem_map.mpr ⟨(c, i), ?_, rfl⟩
        exact List.mem_filter.mpr ⟨hp, decide_eq_true hpol⟩
      · exact decide_eq_true ⟨rfl, rfl⟩
  refine ⟨hiff, fun h => hiff.mpr ?_⟩
  rcases h with h | h <;> rw [h] <;> decide

/-- Witness for C5 on the concrete history `txC4`. -/
theorem C5_forecast_presence_witness :
    ((forecastQtyOf txC4 1 ("A")).isSome ↔
      forecastPolicyOf txC4 1 ("A") ≠ "No-Forecast") ∧
    ((forecastPolicyOf txC4 1 ("A") = "Auto-Forecast" ∨
        forecastPolicyOf txC4 1 ("A") = "Advisory-Forecast") →
      (forecastQtyOf txC4 1 ("A")).isSome) :=
  C5_forecast_presence txC4 1 ("A") (by decide)

/-! ## C6: rounding and non-negativity of the surfaced forecast -/

theorem meanQ_nonneg {l : List ℚ} (h : ∀ x ∈ l, 0 ≤ x) : 0 ≤ meanQ l :=
  div_nonneg (List.sum_nonneg h) (Nat.cast_nonneg _)

theorem getD_nonneg {l : List ℚ} (h : ∀ x ∈ l, 0 ≤ x) (n : ℕ) :
    0 ≤ l.getD n 0 := by
  rw [List.getD_eq_getElem?_getD]
  cases hg : l[n]? with
  | none => simp
  | some a =>
    have ha : a ∈ l := by
      obtain ⟨hlt, he⟩ := List.getElem?_eq_some_iff.mp hg
      exact he ▸ List.getElem_mem hlt
    simpa using h a ha

theorem medianQ_nonneg {l : List ℚ} (h : ∀ x ∈ l, 0 ≤ x) : 0 ≤ medianQ l := by
  have hs : ∀ x ∈ l.mergeSort (fun a b => a ≤ b), 0 ≤ x := by
    intro x hx
    exact h x (List.mem_mergeSort.mp hx)
  rw [medianQ]
  split_ifs
  · exact getD_nonneg hs _
  · have h1 := getD_nonneg hs (l.length / 2 - 1)
    have h2 := getD_nonneg hs (l.length / 2)
    positivity

theorem tail6_nonneg {l : List ℚ} (h : ∀ x ∈ l, 0 ≤ x) :
    ∀ x ∈ tail6 l, 0 ≤ x := fun x hx => h x (List.drop_subset _ _ hx)

theorem filter_pos_nonneg (l : List ℚ) :
    ∀ x ∈ l.filter (fun q => 0 < q), 0 ≤ x := by
  intro x hx
  exact le_of_lt (of_decide_eq_true (List.mem_filter.mp hx).2)

/-- Every estimator branch returns a non-negative value on a non-negative
series. -/
theorem forecast_next_month_nonneg {ts : List ℚ} (seg : String) (ram : ℕ)
    (h : ∀ x ∈ ts, 0 ≤ x) : 0 ≤ forecast_next_month ts seg ram := by
  simp only [forecast_next_month]
  split_ifs
  · exact meanQ_nonneg (tail6_nonneg h)
  · exact le_refl 0
  · exact medianQ_nonneg (tail6_nonneg (filter_pos_nonneg ts))
  · exact le_refl 0
  · exact mul_nonneg (meanQ_nonneg (tail6_nonneg (filter_pos_nonneg ts)))
      (div_nonneg (Nat.cast_nonneg _) (by norm_num))
  · exact le_refl 0

theorem roundHalfEven_nonneg {x : ℚ} (h : 0 ≤ x) : 0 ≤ roundHalfEven x := by
  have hf : (0 : ℤ) ≤ ⌊x⌋ := Int.floor_nonneg.mpr h
  rw [roundHalfEven]
  split_ifs <;> omega

/-- Rounding half to even lands within half a unit of the argument. -/
theorem roundHalfEven_near (x : ℚ) :
    |((roundHalfEven x : ℤ) : ℚ) - x| ≤ 1 / 2 := by
  have hle : (⌊x⌋ : ℚ) ≤ x := Int.floor_le x
  have hlt : x < (⌊x⌋ : ℚ) + 1 := Int.lt_floor_add_one x
  rw [roundHalfEven]
  split_ifs with h1 h2 h3
  · rw [abs_sub_comm, abs_of_nonneg (by linarith)]
    linarith
  · rw [abs_of_nonneg (by push_cast; linarith)]
    push_cast
    linarith
  · have hx : x - ⌊x⌋ = 1 / 2 := le_antisymm (not_lt.mp h2) (not_lt.mp h1)
    rw [abs_sub_comm, abs_of_nonneg (by linarith)]
    linarith
  · have hx : x - ⌊x⌋ = 1 / 2 := le_antisymm (not_lt.mp h2) (not_lt.mp h1)
    rw [abs_of_nonneg (by push_cast; linarith)]
    push_cast
    linarith

theorem seriesOf_nonneg {txns : List Txn} (hq : ∀ t ∈ txns, 0 ≤ t.qty)
    (c : Int) (i : String) : ∀ x ∈ seriesOf txns c i, 0 ≤ x := by
  intro x hx
  obtain ⟨m, _, rfl⟩ := List.mem_map.mp hx
  exact monthlyTotal_nonneg hq c i m

/-- C6: for non-negative input quantities, the surfaced forecast quantity is
the raw estimate rounded to the nearest whole unit (within half a unit of
the raw value) and is non-negative. -/
theorem C6_forecast_rounded (txns : List Txn) (c : Int) (i : String)
    (hq : ∀ t ∈ txns, 0 ≤ t.qty) :
    |((roundHalfEven (rawForecastOf txns c i) : ℤ) : ℚ)
        - rawForecastOf txns c i| ≤ 1 / 2 ∧
    0 ≤ roundHalfEven (rawForecastOf txns c i) ∧
    (∀ q : Int, forecastQtyOf txns c i = some q →
      q = roundHalfEven (rawForecastOf txns c i)) := by
  have hraw : 0 ≤ rawForecastOf txns c i :=
    forecast_next_month_nonneg _ _ (seriesOf_nonneg hq c i)
  refine ⟨roundHalfEven_near _, roundHalfEven_nonneg hraw, ?_⟩
  intro q hsome
  rw [forecastQtyOf] at hsome
  obtain ⟨r, hfind, hq2⟩ := Option.map_eq_some'.mp hsome
  have hpred := List.find?_some hfind
  obtain ⟨h1, h2⟩ := of_decide_eq_true hpred
  have hkey := forecastRows_key (List.mem_of_find?_eq_some hfind)
  rw [h1, h2] at hkey
  rw [← hq2]
  exact hkey.2.2

/-- Witness for C6 on the concrete history `txC4`. -/
theorem C6_forecast_rounded_witness :
    |((roundHalfEven (rawForecastOf txC4 1 ("A")) : ℤ) : ℚ)
        - rawForecastOf txC4 1 ("A")| ≤ 1 / 2 ∧
    0 ≤ roundHalfEven (rawForecastOf txC4 1 ("A")) ∧
    (∀ q : Int, forecastQtyOf txC4 1 ("A") = some q →
      q = roundHalfEven (rawForecastOf txC4 1 ("A"))) :=
  C6_forecast_rounded txC4 1 ("A") (by decide)

/-! ## C9 and C10 -/

/-- A pair whose aggregated total is zero in every grid month has no active
month, is One-time, gets status Ignore and policy No-Forecast. -/
theorem allZero_policy {txns : List Txn} {c : Int} {i : String}
    (hz : ∀ m ∈ allMonths txns, monthlyTotal txns c i m = 0) :
    activeMonthsOf txns c i = 0 ∧
    demandSegmentOf txns c i = "One-time" ∧
    planningStatusOf txns c i = "Ignore" ∧
    forecastPolicyOf txns c i = "No-Forecast" := by
  have h_am : activeMonthsOf txns c i = 0 := by
    rw [activeMonthsOf, activeCount, List.length_eq_zero, List.filter_eq_nil_iff]
    intro q hq htrue
    obtain ⟨m, hm, rfl⟩ := List.mem_map.mp hq
    have hlt := of_decide_eq_true htrue
    rw [hz m hm] at hlt
    exact lt_irrefl 0 hlt
  have hseg : demandSegmentOf txns c i = "One-time" := by
    rw [demandSegmentOf, h_am, classify, if_pos (by norm_num)]
  have hst : planningStatusOf txns c i = "Ignore" := by
    rw [planningStatusOf, hseg, assignPlanningStatus, if_pos rfl]
  have hpol : forecastPolicyOf txns c i = "No-Forecast" := by
    rw [forecastPolicyOf, hst, assignForecastPolicy, if_neg (by decide),
      if_neg (by decide)]
  exact ⟨h_am, hseg, hst, hpol⟩

/-- C9: when policy gating leaves no forecast row at all, the run aborts
with the no-forecast error and never reaches the output-writing stage. -/
theorem C9_empty_forecast_fatal (txns : List Txn)
    (h : forecastRowsOf txns = []) :
    (∀ o : Outputs, runPipeline txns ≠ .ok o) ∧
    (txns ≠ [] → hasNegativeMonthly txns = false →
      runPipeline txns = .error .noForecasts) := by
  constructor
  · intro o hok
    rw [runPipeline] at hok
    split_ifs at hok
  · intro hne hneg
    rw [runPipeline, if_neg hne, if_neg (by rw [hneg]; exact Bool.false_ne_true),
      if_pos h]

/-- A one-transaction history whose single pair has quantity zero, so no
forecast row is produced at all. -/
def txC9 : List Txn := [⟨1, "A", 5, 0⟩]

/-- Witness for C9 on the concrete history `txC9`. -/
theorem C9_empty_forecast_fatal_witness :
    (∀ o : Outputs, runPipeline txC9 ≠ .ok o) ∧
    (txC9 ≠ [] → hasNegativeMonthly txC9 = false →
      runPipeline txC9 = .error .noForecasts) := by
  have hz : ∀ m ∈ allMonths txC9, monthlyTotal txC9 1 ("A") m = 0 := by
    intro m hm
    rw [show allMonths txC9 = [5] from rfl] at hm
    fin_cases hm
    norm_num [monthlyTotal, txC9, List.filter]
  have hpol := (allZero_policy hz).2.2.2
  have hrows : forecastRowsOf txC9 = [] := by
    rw [forecastRowsOf]
    have hfil : (pairsOf txC9).filter
        (fun p => forecastPolicyOf txC9 p.1 p.2 ≠ "No-Forecast") = [] := by
      rw [List.filter_eq_nil_iff]
      intro p hp htrue
      have hps : p = (1, "A") := by
        rw [show pairsOf txC9 = [(1, "A")] from rfl] at hp
        simpa using hp
      subst hps
      exact of_decide_eq_true htrue hpol
    rw [hfil]
    rfl
  exact C9_empty_forecast_fatal txC9 hrows

/-- C10: a pair observed in the input whose aggregated monthly total is zero
in every month still appears in the dense grid and in the forecast summary,
has no active month, is classified One-time, gets status Ignore and policy
No-Forecast, and carries no forecast quantity. -/
theorem C10_all_zero_pair (txns : List Txn) (c : Int) (i : String)
    (hp : (c, i) ∈ pairsOf txns)
    (hz : ∀ m ∈ allMonths txns, monthlyTotal txns c i m = 0) :
    (∃ cell ∈ gridOf txns, cell.cust = c ∧ cell.item = i) ∧
    (∃ row ∈ forecastSummaryOf txns, row.cust = c ∧ row.item = i ∧
      row.forecastQty = none) ∧
    activeMonthsOf txns c i = 0 ∧
    demandSegmentOf txns c i = "One-time" ∧
    planningStatusOf txns c i = "Ignore" ∧
    forecastPolicyOf txns c i = "No-Forecast" ∧
    forecastQtyOf txns c i = none := by
  obtain ⟨h_am, hseg, hst, hpol⟩ := allZero_policy hz
  have hqty : forecastQtyOf txns c i = none := by
    rw [forecastQtyOf]
    have hfind : (forecastRowsOf txns).find?
        (fun r => r.1 = c ∧ r.2.1 = i) = none := by
      rw [List.find?_eq_none]
      intro r hr htrue
      obtain ⟨h1, h2⟩ := of_decide_eq_true htrue
      have hkey := forecastRows_key hr
      rw [h1, h2] at hkey
      exact hkey.2.1 hpol
    rw [hfind]
    rfl
  have hne : txns ≠ [] := by
    intro hnil
    subst hnil
    exact absurd hp (List.not_mem_nil _)
  obtain ⟨a, ha⟩ := gminOf_isSome hne
  obtain ⟨b, hb⟩ := gmaxOf_isSome hne
  obtain ⟨t, ht, htk⟩ : ∃ t ∈ txns, (t.cust, t.item) = (c, i) := by
    have := List.mem_dedup.mp hp
    obtain ⟨t, ht, hteq⟩ := List.mem_map.mp this
    exact ⟨t, ht, hteq⟩
  have hab : a ≤ b := le_trans (gminOf_le ha t ht) (le_gmaxOf hb t ht)
  have hamem : a ∈ allMonths txns := by
    rw [allMonths_eq ha hb]
    exact mem_monthsRange.mpr ⟨le_rfl, hab⟩
  refine ⟨?_, ?_, h_am, hseg, hst, hpol, hqty⟩
  · refine ⟨⟨c, i, a, monthlyTotal txns c i a⟩, ?_, rfl, rfl⟩
    rw [gridOf]
    exact List.mem_flatMap.mpr ⟨(c, i), hp,
      List.mem_map.mpr ⟨a, hamem, rfl⟩⟩
  · refine ⟨⟨c, i, demandSegmentOf txns c i, planningStatusOf txns c i,
      forecastPolicyOf txns c i, forecastQtyOf txns c i, avgQtyOf txns c i,
      cvOf txns c i, zeroRatioOf txns c i, ramOf txns c i,
      msloOf txns c i⟩, ?_, rfl, rfl, hqty⟩
    rw [forecastSummaryOf]
    exact List.mem_map.mpr ⟨(c, i), hp, rfl⟩

/-- A two-pair history in which pair `(1, A)` only ever has quantity zero. -/
def txC10 : List Txn := [⟨1, "A", 0, 0⟩, ⟨2, "B", 3, 5⟩]

/-- Witness for C10 on the concrete history `txC10`. -/
theorem C10_all_zero_pair_witness :
    (∃ cell ∈ gridOf txC10, cell.cust = 1 ∧ cell.item = "A") ∧
    (∃ row ∈ forecastSummaryOf txC10, row.cust = 1 ∧ row.item = "A" ∧
      row.forecastQty = none) ∧
    activeMonthsOf txC10 1 ("A") = 0 ∧
    demandSegmentOf txC10 1 ("A") = "One-time" ∧
    planningStatusOf txC10 1 ("A") = "Ignore" ∧
    forecastPolicyOf txC10 1 ("A") = "No-Forecast" ∧
    forecastQtyOf txC10 1 ("A") = none := by
  refine C10_all_zero_pair txC10 1 ("A") (by decide) ?_
  intro m hm
  rw [show allMonths txC10 = [0, 1, 2, 3] from rfl] at hm
  fin_cases hm <;> norm_num [monthlyTotal, txC10, List.filter]
